import Mathlib

/-!
Verification of the audio-capture-and-gating client of
src/frontend/src/App.tsx against its design specification.

The embedding models, directly from the source:
* the per-tick talking gate of the recorder dataavailable listener
  (App.tsx lines 93-121), with the rms reading of the tick abstracted as
  a rational number;
* the rms computation over one analyser window (lines 96-102);
* the session-level socket handlers onopen, onmessage, onclose, onerror
  and the connectToRoom / disconnectFromRoom operations (lines 51-159),
  acting on an explicit application state mirroring the component state
  (ws, wsConnected, mediaStreamRef, the closure variable isTalking),
  extended with ghost logs of the chunks sent and the messages received
  so that temporal properties can be stated.
-/

/-- WebSocket ready states, named after the WebSocket constants. -/
inductive ReadyState
  | CONNECTING
  | OPEN
  | CLOSING
  | CLOSED
deriving DecidableEq, Repr

/-- Console events emitted by the talking gate of the dataavailable
listener: Talking started (App.tsx line 106), Idle after talking
(line 113), not talking (line 118). -/
inductive TalkEvent
  | talkStart
  | talkStop
  | notTalking
deriving DecidableEq, Repr

/-- Result of the talking gate (App.tsx lines 104-119): the updated
isTalking flag, the console event of the tick, and whether the chunk is
handed to the socket. -/
structure GateOut where
  isTalking : Bool
  event : Option TalkEvent
  send : Bool
deriving DecidableEq, Repr

/-- The talking gate, App.tsx lines 104-119: when rms > threshold the
chunk is sent and isTalking is raised, logging talk-start exactly on the
transition; otherwise the chunk is dropped, and isTalking is lowered
(logging talk-stop) when it was set, or stays down (logging
not-talking). -/
def talkGate (threshold : ℚ) (isTalking : Bool) (rms : ℚ) : GateOut :=
  if threshold < rms then
    { isTalking := true
      event := if isTalking then none else some TalkEvent.talkStart
      send := true }
  else if isTalking then
    { isTalking := false, event := some TalkEvent.talkStop, send := false }
  else
    { isTalking := false, event := some TalkEvent.notTalking, send := false }

/-- The sensitivity threshold, App.tsx line 84. -/
def threshold : ℚ := 10

/-- Result of one dataavailable tick: the updated isTalking flag, the
console event, and the chunks handed to the socket on this tick. -/
structure TickOut where
  isTalking : Bool
  event : Option TalkEvent
  sent : List ℕ
deriving DecidableEq, Repr

/-- One dataavailable tick, App.tsx lines 93-121: the body runs only when
the chunk is non-empty and the socket readyState is OPEN (line 94); rms
is the loudness reading recomputed from the analyser on this very tick
(lines 96-102). -/
def recorderTick (isTalking : Bool) (size : ℕ) (ready : ReadyState)
    (rms : ℚ) : TickOut :=
  if 0 < size ∧ ready = ReadyState.OPEN then
    let g := talkGate threshold isTalking rms
    { isTalking := g.isTalking
      event := g.event
      sent := if g.send then [size] else [] }
  else
    { isTalking := isTalking, event := none, sent := [] }

/-- Folding the talking gate over a sequence of rms readings, returning
the post-state and console event of each tick. -/
def runTalk (threshold : ℚ) (isTalking : Bool) :
    List ℚ → List (Bool × Option TalkEvent)
  | [] => []
  | r :: rs =>
    let g := talkGate threshold isTalking r
    (g.isTalking, g.event) :: runTalk threshold g.isTalking rs

/-- The squared rms of one analyser window, App.tsx lines 96-102: each
byte sample is centered at 128, squared and summed, and the sum is
divided by the window length; the code takes the real square root of this
value (line 102). -/
def rmsSq (samples : List ℕ) : ℚ :=
  ((samples.map (fun (s : ℕ) => ((s : ℚ) - 128) ^ 2)).sum) /
    (samples.length : ℚ)

/-- An inbound structured message as the specification describes it:
optional type and status fields. The code never parses inbound data
(onmessage only logs it); this type exists to state the handshake-gating
property. -/
structure InboundMessage where
  type : Option String
  status : Option String
deriving DecidableEq, Repr

/-- Case-insensitive string comparison. -/
def lowerEq (a b : String) : Bool :=
  a.data.map Char.toLower == b.data.map Char.toLower

/-- Whether a message is a handshake confirmation: type equal to
handshake_status and status equal to connected, both compared
case-insensitively, as the specification words it. -/
def isHandshakeConnected (m : InboundMessage) : Bool :=
  (match m.type with
   | some t => lowerEq t "handshake_status"
   | none => false)
  && (match m.status with
      | some s => lowerEq s "connected"
      | none => false)

/-- JavaScript whitespace characters: the set removed by
String.prototype.trim. -/
def isJsWhitespace (c : Char) : Bool :=
  c == ' ' || c == '\t' || c == '\n' || c == '\r' || c == '\x0b' ||
  c == '\x0c' || c == '\xa0' || c == '\uFEFF' || c == '\u2028' ||
  c == '\u2029'

/-- JavaScript String.prototype.trim on a list of characters: drop
whitespace from both ends (App.tsx line 52 tests room.trim() for
emptiness). -/
def jsTrim (s : List Char) : List Char :=
  ((s.dropWhile isJsWhitespace).reverse.dropWhile isJsWhitespace).reverse

/-- The microphone stream held in mediaStreamRef: whether its tracks are
still live, and the recorder attached in onopen (none before onopen,
some true while running, some false once stopped). -/
structure MediaStream where
  tracksLive : Bool
  recorderRunning : Option Bool
deriving DecidableEq, Repr

/-- The component state of App.tsx relevant to the connection lifecycle:
the room input, the ws handle (modelled as a numeric socket id), the
socket readyState, the wsConnected flag, the microphone stream, the
closure variable isTalking of the open socket, and ghost logs of the
chunks sent and the messages received (the code only console.logs
inbound messages). -/
structure AppState where
  room : List Char
  ws : Option ℕ
  readyState : ReadyState
  wsConnected : Bool
  mediaStream : Option MediaStream
  isTalking : Bool
  sentChunks : List ℕ
  received : List InboundMessage
  nextSocketId : ℕ
deriving DecidableEq, Repr

/-- The initial component state: empty room, no socket, no microphone. -/
def initialState : AppState :=
  { room := [], ws := none, readyState := ReadyState.CLOSED,
    wsConnected := false, mediaStream := none, isTalking := false,
    sentChunks := [], received := [], nextSocketId := 0 }

/-- Outcome of connectToRoom: either the empty-room alert-and-return
path (App.tsx lines 52-55) or a started connection attempt. -/
inductive ConnectOutcome
  | alerted
  | proceeded
deriving DecidableEq, Repr

/-- connectToRoom, App.tsx lines 51-144: when the trimmed room is empty,
alert and return with nothing changed; otherwise acquire the microphone
(line 58), store it in mediaStreamRef (line 59), create a WebSocket on
the room URL (lines 67-69) and store it with setWs (line 143). No check
of an existing session is made, and the previous stream and socket, if
any, are overwritten without being stopped or closed. -/
def connectToRoom (st : AppState) : AppState × ConnectOutcome :=
  if jsTrim st.room = [] then
    (st, ConnectOutcome.alerted)
  else
    ({ st with
        mediaStream := some { tracksLive := true, recorderRunning := none }
        ws := some st.nextSocketId
        readyState := ReadyState.CONNECTING
        nextSocketId := st.nextSocketId + 1 },
     ConnectOutcome.proceeded)

/-- socket.onopen, App.tsx lines 73-127: the socket is now OPEN, the
closure variable isTalking is initialised to false (line 86), and a
recorder is created on the stream and started (lines 89, 124, 126). -/
def handleOpen (st : AppState) : AppState :=
  { st with
      readyState := ReadyState.OPEN
      isTalking := false
      mediaStream := st.mediaStream.map
        (fun m => { m with recorderRunning := some true }) }

/-- socket.onmessage, App.tsx lines 129-131: the message is only logged;
the model records it in the ghost received log and changes nothing
else. -/
def handleMessage (st : AppState) (m : InboundMessage) : AppState :=
  { st with received := st.received ++ [m] }

/-- socket.onclose, App.tsx lines 133-137: the socket is closed,
wsConnected is cleared and ws is set to null. The recorder and the
microphone tracks are not touched. -/
def handleClose (st : AppState) : AppState :=
  { st with readyState := ReadyState.CLOSED, wsConnected := false, ws := none }

/-- socket.onerror, App.tsx lines 139-141: the error is only logged;
nothing changes. -/
def handleError (st : AppState) : AppState := st

/-- The recorder dataavailable listener at session level, App.tsx lines
93-121: run one tick with the current isTalking flag and socket
readyState, appending any sent chunk to the ghost sentChunks log. -/
def handleChunk (st : AppState) (size : ℕ) (rms : ℚ) : AppState :=
  let out := recorderTick st.isTalking size st.readyState rms
  { st with isTalking := out.isTalking, sentChunks := st.sentChunks ++ out.sent }

/-- The asynchronous events a session processes. -/
inductive SessionEvent
  | opened
  | message (m : InboundMessage)
  | closed
  | errored
  | chunkReady (size : ℕ) (rms : ℚ)

/-- Dispatch one session event to its handler. -/
def stepEvent (st : AppState) : SessionEvent → AppState
  | SessionEvent.opened => handleOpen st
  | SessionEvent.message m => handleMessage st m
  | SessionEvent.closed => handleClose st
  | SessionEvent.errored => handleError st
  | SessionEvent.chunkReady size rms => handleChunk st size rms

/-- Process a list of session events in order. -/
def runEvents (st : AppState) (es : List SessionEvent) : AppState :=
  es.foldl stepEvent st

/-- disconnectFromRoom, App.tsx lines 146-159: when a socket handle
exists, stop the recorder if one is attached (lines 149-151), stop the
microphone tracks (line 153), close the socket and clear ws and
wsConnected (lines 155-157); otherwise do nothing. -/
def disconnectFromRoom (st : AppState) : AppState :=
  match st.ws with
  | some _ =>
    { st with
        mediaStream := st.mediaStream.map
          (fun m =>
            { m with
                recorderRunning := m.recorderRunning.map (fun _ => false)
                tracksLive := false })
        readyState := ReadyState.CLOSING
        ws := none
        wsConnected := false }
  | none => st

/-- A fresh state with the room name lobby typed in. -/
def lobbyState : AppState :=
  { initialState with room := ['l', 'o', 'b', 'b', 'y'] }

/-- The state after connectToRoom from lobbyState followed by a
successful transport open. -/
def activeState : AppState :=
  runEvents (connectToRoom lobbyState).1 [SessionEvent.opened]

/-- The state after a connect whose transport then fails: the error and
close events fire with no open in between. -/
def failedConnectState : AppState :=
  runEvents (connectToRoom lobbyState).1
    [SessionEvent.errored, SessionEvent.closed]

/-- The state after a connect, a transport open, and one non-empty loud
chunk, with no inbound message ever received. -/
def noHandshakeSendState : AppState :=
  runEvents (connectToRoom lobbyState).1
    [SessionEvent.opened, SessionEvent.chunkReady 1 15]

/-- A state whose room consists of two spaces. -/
def blankRoomState : AppState := { initialState with room := [' ', ' '] }

/-- A list all of whose elements satisfy the predicate trims to the empty
list. -/
lemma jsTrim_all_whitespace (l : List Char)
    (h : ∀ c ∈ l, isJsWhitespace c = true) : jsTrim l = [] := by
  unfold jsTrim
  rw [List.dropWhile_eq_nil_iff.mpr h]
  rfl

/-- Casting the rational sum of centered squares to the reals gives the
real sum of centered squares. -/
lemma sum_centeredSq_cast (l : List ℕ) :
    (((l.map (fun (s : ℕ) => ((s : ℚ) - 128) ^ 2)).sum : ℚ) : ℝ) =
      (l.map (fun (s : ℕ) => ((s : ℝ) - 128) ^ 2)).sum := by
  induction l with
  | nil => simp
  | cons a t ih =>
    rw [List.map_cons, List.sum_cons, List.map_cons, List.sum_cons,
      Rat.cast_add, ih]
    congr 1
    push_cast
    ring

/-- Each centered square of a byte sample is at most 16384, hence the sum
over a window is at most 16384 times its length. -/
lemma sum_centeredSq_le (l : List ℕ) (h : ∀ s ∈ l, s < 256) :
    (l.map (fun (s : ℕ) => ((s : ℚ) - 128) ^ 2)).sum ≤
      16384 * (l.length : ℚ) := by
  induction l with
  | nil => simp
  | cons a t ih =>
    have h1 : (a : ℚ) < 256 := by
      exact_mod_cast h a (List.mem_cons_self a t)
    have h2 : (0 : ℚ) ≤ (a : ℚ) := Nat.cast_nonneg a
    have ha : ((a : ℚ) - 128) ^ 2 ≤ 16384 := by
      have hsq := sq_le_sq' (by linarith : -(128 : ℚ) ≤ (a : ℚ) - 128)
        (by linarith : (a : ℚ) - 128 ≤ 128)
      linarith [hsq]
    have ht := ih (fun s hs => h s (List.mem_cons_of_mem a hs))
    rw [List.map_cons, List.sum_cons, List.length_cons, Nat.cast_add,
      Nat.cast_one]
    linarith

/-- C1: the talking state machine starts in Idle, enters Talking exactly
when the rms reading exceeds the threshold (emitting talk-start exactly
on that transition), returns to Idle exactly when the reading is at most
the threshold (emitting talk-stop exactly on that transition), and makes
no transition when the reading stays on the same side; on the rms
sequence 5, 15, 20, 3 with threshold 10 the post-states are Idle,
Talking, Talking, Idle, with talk-start emitted only at the 2nd reading
and talk-stop only at the 4th. -/
theorem talking_state_machine :
    (∀ (th r : ℚ) (b : Bool),
        ((talkGate th b r).isTalking = true ↔ th < r) ∧
        ((talkGate th b r).event = some TalkEvent.talkStart ↔
          (b = false ∧ th < r)) ∧
        ((talkGate th b r).event = some TalkEvent.talkStop ↔
          (b = true ∧ r ≤ th))) ∧
    runTalk 10 false [5, 15, 20, 3] =
      [(false, some TalkEvent.notTalking), (true, some TalkEvent.talkStart),
       (true, none), (false, some TalkEvent.talkStop)] := by
  constructor
  · intro th r b
    by_cases h : th < r
    · cases b <;> simp [talkGate, h, not_le.mpr h]
    · cases b <;> simp [talkGate, h, not_lt.mp h]
  · decide

/-- C4: on a tick with a non-empty chunk, when the talk classification
recomputed on that very tick is Idle the chunk is never handed to the
socket, and when it is Talking while the socket is OPEN the chunk is
handed to the socket exactly once. -/
theorem chunk_gating (b : Bool) (size : ℕ) (ready : ReadyState) (r : ℚ)
    (hsize : 0 < size) :
    ((talkGate threshold b r).isTalking = false →
      (recorderTick b size ready r).sent = []) ∧
    ((talkGate threshold b r).isTalking = true → ready = ReadyState.OPEN →
      (recorderTick b size ready r).sent = [size]) := by
  by_cases h : threshold < r <;> by_cases hr : ready = ReadyState.OPEN <;>
    cases b <;> simp [recorderTick, talkGate, h, hr, hsize]

/-- Witness for chunk_gating at a loud non-empty chunk on an open
socket. -/
theorem chunk_gating_witness :
    0 < 1 ∧
    (((talkGate threshold false 15).isTalking = false →
        (recorderTick false 1 ReadyState.OPEN 15).sent = []) ∧
      ((talkGate threshold false 15).isTalking = true →
        ReadyState.OPEN = ReadyState.OPEN →
        (recorderTick false 1 ReadyState.OPEN 15).sent = [1])) :=
  ⟨Nat.one_pos, chunk_gating false 1 ReadyState.OPEN 15 Nat.one_pos⟩

/-- C10: a tick whose chunk is empty or whose socket is not OPEN leaves
the talking flag unchanged, emits no event and sends nothing, whatever
the rms reading of that tick. -/
theorem tick_guard (b : Bool) (size : ℕ) (ready : ReadyState) (r : ℚ)
    (h : size = 0 ∨ ready ≠ ReadyState.OPEN) :
    recorderTick b size ready r =
      { isTalking := b, event := none, sent := [] } := by
  rcases h with h | h <;> simp [recorderTick, h]

/-- Witness for tick_guard at an empty chunk with a loud reading. -/
theorem tick_guard_witness :
    ((0 : ℕ) = 0 ∨ ReadyState.OPEN ≠ ReadyState.OPEN) ∧
    recorderTick true 0 ReadyState.OPEN 15 =
      { isTalking := true, event := none, sent := [] } :=
  ⟨Or.inl rfl, tick_guard true 0 ReadyState.OPEN 15 (Or.inl rfl)⟩

/-- C2 (counterexample): a session that connects, opens and produces one
loud non-empty chunk transmits it although no inbound message, in
particular no handshake confirmation, was ever received: transmission is
not gated on a handshake_status message. -/
theorem sent_before_handshake_cex :
    noHandshakeSendState.sentChunks = [1] ∧
    noHandshakeSendState.received = [] ∧
    noHandshakeSendState.received.all
      (fun m => !(isHandshakeConnected m)) = true := by
  decide

/-- C2 (amended): inbound messages are only logged and never gate
transmission: a tick hands its chunk to the socket exactly when the chunk
is non-empty, the socket readyState is OPEN and the rms reading exceeds
the threshold, whether or not any handshake confirmation was received
before. -/
theorem transmission_not_handshake_gated :
    (∀ (st : AppState) (m : InboundMessage),
        handleMessage st m = { st with received := st.received ++ [m] }) ∧
    (∀ (b : Bool) (size : ℕ) (ready : ReadyState) (r : ℚ),
        (recorderTick b size ready r).sent ≠ [] ↔
          (0 < size ∧ ready = ReadyState.OPEN ∧ threshold < r)) := by
  constructor
  · intro st m
    rfl
  · intro b size ready r
    by_cases hs : 0 < size <;> by_cases hr : ready = ReadyState.OPEN <;>
      by_cases ht : threshold < r <;> cases b <;>
        simp [recorderTick, talkGate, hs, hr, ht]

/-- C3 (counterexample): invoking connectToRoom from a state that already
holds a live session does not fail and does not leave the state
unchanged: it proceeds and replaces the stored socket handle. -/
theorem connect_replaces_session_cex :
    activeState.ws = some 0 ∧
    (connectToRoom activeState).2 = ConnectOutcome.proceeded ∧
    (connectToRoom activeState).1.ws = some 1 ∧
    (connectToRoom activeState).1 ≠ activeState := by
  decide

/-- C3 (amended): connectToRoom performs no single-session check: with a
room whose trimmed value is non-empty it always proceeds, acquiring a
fresh microphone stream and a new socket and overwriting the stored
handles, whatever the current session state. -/
theorem connect_no_single_session_guard (st : AppState)
    (h : jsTrim st.room ≠ []) :
    (connectToRoom st).2 = ConnectOutcome.proceeded ∧
    (connectToRoom st).1 =
      { st with
          mediaStream := some { tracksLive := true, recorderRunning := none }
          ws := some st.nextSocketId
          readyState := ReadyState.CONNECTING
          nextSocketId := st.nextSocketId + 1 } := by
  simp [connectToRoom, h]

/-- Witness for connect_no_single_session_guard at the live-session
state. -/
theorem connect_no_single_session_guard_witness :
    jsTrim activeState.room ≠ [] ∧
    ((connectToRoom activeState).2 = ConnectOutcome.proceeded ∧
      (connectToRoom activeState).1 =
        { activeState with
            mediaStream :=
              some { tracksLive := true, recorderRunning := none }
            ws := some activeState.nextSocketId
            readyState := ReadyState.CONNECTING
            nextSocketId := activeState.nextSocketId + 1 }) :=
  ⟨by decide, connect_no_single_session_guard activeState (by decide)⟩

/-- C5 (counterexample): after socket.onclose fires on a live session the
recorder is still running and the microphone tracks are still live,
unlike the explicit disconnect path which stops both, and socket.onerror
changes nothing at all. -/
theorem close_leaks_audio_cex :
    (handleClose activeState).mediaStream =
      some { tracksLive := true, recorderRunning := some true } ∧
    (disconnectFromRoom activeState).mediaStream =
      some { tracksLive := false, recorderRunning := some false } ∧
    handleError activeState = activeState := by
  decide

/-- C5 (amended): socket.onclose resets the connection state to an
observable disconnected one (socket closed, ws cleared, wsConnected
false) but leaves the microphone stream and its recorder untouched, and
socket.onerror only logs, changing neither state nor resources. -/
theorem close_resets_connection_only (st : AppState) :
    handleClose st =
      { st with
          readyState := ReadyState.CLOSED
          wsConnected := false
          ws := none } ∧
    (handleClose st).mediaStream = st.mediaStream ∧
    handleError st = st :=
  ⟨rfl, rfl, rfl⟩

/-- C6: disconnectFromRoom always yields a state with no socket handle,
and a second call returns the first call's result unchanged; being a
total function it raises no error. -/
theorem disconnect_idempotent (st : AppState) :
    (disconnectFromRoom st).ws = none ∧
    disconnectFromRoom (disconnectFromRoom st) = disconnectFromRoom st := by
  cases hw : st.ws <;> simp [disconnectFromRoom, hw]

/-- C7: for a non-empty window of byte samples the loudness metric of the
tick is the root-mean-square of the samples centered at 128 — the square
root of the sum of squared centered samples divided by the window length
— computed by a pure function of the window, and it always lies between
0 and 128. -/
theorem rms_pure_and_bounded (l : List ℕ) (hne : l ≠ [])
    (hb : ∀ s ∈ l, s < 256) :
    ((rmsSq l : ℚ) : ℝ) =
        (1 / (l.length : ℝ)) *
          (l.map (fun (s : ℕ) => ((s : ℝ) - 128) ^ 2)).sum ∧
    0 ≤ Real.sqrt ((rmsSq l : ℚ) : ℝ) ∧
    Real.sqrt ((rmsSq l : ℚ) : ℝ) ≤ 128 := by
  have hlen : 0 < l.length := List.length_pos.mpr hne
  have hlenQ : (0 : ℚ) < (l.length : ℚ) := by exact_mod_cast hlen
  have hcast : ((rmsSq l : ℚ) : ℝ) =
      (l.map (fun (s : ℕ) => ((s : ℝ) - 128) ^ 2)).sum / (l.length : ℝ) := by
    unfold rmsSq
    rw [Rat.cast_div, sum_centeredSq_cast]
    norm_cast
  refine ⟨?_, Real.sqrt_nonneg _, ?_⟩
  · rw [hcast]
    ring
  · have hle : rmsSq l ≤ 16384 := by
      unfold rmsSq
      rw [div_le_iff₀ hlenQ]
      exact sum_centeredSq_le l hb
    have hleR : ((rmsSq l : ℚ) : ℝ) ≤ 16384 := by exact_mod_cast hle
    calc Real.sqrt ((rmsSq l : ℚ) : ℝ) ≤ Real.sqrt 16384 :=
          Real.sqrt_le_sqrt hleR
      _ = 128 := by
          rw [show (16384 : ℝ) = 128 ^ 2 by norm_num,
            Real.sqrt_sq (by norm_num : (0 : ℝ) ≤ 128)]

/-- Witness for rms_pure_and_bounded on the window 0, 128, 255. -/
theorem rms_pure_and_bounded_witness :
    ([0, 128, 255] : List ℕ) ≠ [] ∧
    (∀ s ∈ ([0, 128, 255] : List ℕ), s < 256) ∧
    (0 ≤ Real.sqrt ((rmsSq [0, 128, 255] : ℚ) : ℝ) ∧
      Real.sqrt ((rmsSq [0, 128, 255] : ℚ) : ℝ) ≤ 128) :=
  ⟨by decide, by decide,
    (rms_pure_and_bounded [0, 128, 255] (by decide) (by decide)).2⟩

/-- C8 (counterexample): a connect from a valid room acquires the
microphone, and when the transport then fails — the error and close
events fire — the session ends with no socket but the microphone tracks
are still live: the partially-acquired resource is not released. -/
theorem connect_failure_keeps_mic_cex :
    (connectToRoom lobbyState).2 = ConnectOutcome.proceeded ∧
    (connectToRoom lobbyState).1.mediaStream =
      some { tracksLive := true, recorderRunning := none } ∧
    failedConnectState.ws = none ∧
    failedConnectState.mediaStream =
      some { tracksLive := true, recorderRunning := none } := by
  decide

/-- C8 (amended): connectToRoom with a room whose trimmed value is empty
alerts and aborts with the state unchanged — no microphone is acquired,
no socket is created; but when a later connect step fails, the transport
error and close handlers leave an already-acquired microphone stream in
place instead of releasing it. -/
theorem empty_room_aborts_before_resources :
    (∀ st : AppState, jsTrim st.room = [] →
        connectToRoom st = (st, ConnectOutcome.alerted)) ∧
    (∀ st : AppState,
        (handleError st).mediaStream = st.mediaStream ∧
        (handleClose st).mediaStream = st.mediaStream) := by
  constructor
  · intro st h
    simp [connectToRoom, h]
  · intro st
    exact ⟨rfl, rfl⟩

/-- Witness for empty_room_aborts_before_resources at the initial state,
whose room is empty. -/
theorem empty_room_aborts_before_resources_witness :
    jsTrim initialState.room = [] ∧
    connectToRoom initialState = (initialState, ConnectOutcome.alerted) :=
  ⟨by decide, empty_room_aborts_before_resources.1 initialState (by decide)⟩

/-- C9: a room consisting only of whitespace characters trims to the
empty string, so connectToRoom alerts and aborts exactly as for an empty
room, with the state unchanged: no microphone acquisition, no socket
creation. -/
theorem whitespace_room_rejected (st : AppState)
    (h : ∀ c ∈ st.room, isJsWhitespace c = true) :
    jsTrim st.room = [] ∧
    connectToRoom st = (st, ConnectOutcome.alerted) := by
  have ht : jsTrim st.room = [] := jsTrim_all_whitespace st.room h
  exact ⟨ht, by simp [connectToRoom, ht]⟩

/-- Witness for whitespace_room_rejected on a room of two spaces. -/
theorem whitespace_room_rejected_witness :
    (∀ c ∈ blankRoomState.room, isJsWhitespace c = true) ∧
    (jsTrim blankRoomState.room = [] ∧
      connectToRoom blankRoomState =
        (blankRoomState, ConnectOutcome.alerted)) :=
  ⟨by decide, whitespace_room_rejected blankRoomState (by decide)⟩
